import Mathlib

/-!
Verification of the zView BasicPresenterSample session engine
(src/BasicPresenterSample/BasicPresenterSample.cpp).

The C++ sample is a single-threaded, tick-driven presenter.  Its mutable
global variables are embedded here as explicit state structures, each
transport call (`zv*`) as an emitted action, and each presenter function as
a pure Lean function from state and per-tick oracle inputs to a new state
and a list of emitted actions.  Machine integers are modelled as `Nat`
(with an explicit `% 2^64` where the C++ uses a `ZSUInt64` counter) and the
`ZSFloat` setting values as `ℚ` (the clamping logic uses only order
comparisons and addition, which the rational model shares with the float
implementation).
-/

namespace BasicPresenter

/-- Enumeration `ZVConnectionState` from the zView API, as dispatched on by
`updateZviewConnection`. -/
inductive ZVConnectionState where
  | connectionInitialization
  | awaitingConnectionAcceptance
  | switchingModes
  | noMode
  | modeSetup
  | modeActive
  | modePaused
  | modeResuming
  | processingModeSettingsChange
  | closed
  | error
deriving DecidableEq, Repr

/-- The two modes this presenter supports (`g_zViewStandardMode`,
`g_zViewAugmentedRealityMode`), compared by handle equality in the C++. -/
inductive ZVMode where
  | standard
  | augmentedReality
deriving DecidableEq, Repr

/-- Enumeration `ZVModeSetupPhase`. -/
inductive ZVModeSetupPhase where
  | initialization
  | completion
deriving DecidableEq, Repr

/-- The setting keys the presenter touches. -/
inductive ZVSettingKey where
  | imageWidth
  | imageHeight
  | overlayOffsetX
  | overlayOffsetY
  | overlayScaleX
  | overlayScaleY
  | videoRecordingQuality
deriving DecidableEq, Repr

/-- Enumeration `ZVVideoRecordingState`. -/
inductive ZVVideoRecordingState where
  | notAvailable
  | notRecording
  | recording
  | paused
  | finished
  | error
deriving DecidableEq, Repr

/-- Connections are opaque handles; we name them by `Nat`. -/
abbrev ConnId := Nat

/-- Values of type `ZSUInt64` wrap modulo `2^64`. -/
def u64Size : Nat := 2 ^ 64

/-- Close reasons passed to `zvCloseConnection` by the sample. -/
inductive ZVCloseReason where
  | connectionRejected
  | userRequested
deriving DecidableEq, Repr

/-- Availability of a supported mode (`ZVSupportedMode.availability`). -/
inductive ZVModeAvailability where
  | available
  | notAvailable
deriving DecidableEq, Repr

/-- An entry of the connection's supported-mode list
(`zvGetConnectionSupportedMode`). -/
structure ZVSupportedMode where
  mode : ZVMode
  availability : ZVModeAvailability
deriving DecidableEq, Repr

/-- The sample's mutable globals that the session engine reads and writes.
`ZCHandle`/`GLuint` identifiers are `Nat` with `0` standing for
`NULL`/no object; the float-valued camera/pose/projection globals of the
geometry engine are outside the claims' scope and are not carried.
`g_windowWidth`/`g_windowHeight` are written only by the windowing layer
and are read-only for every function modelled here. -/
structure Globals where
  /-- Global `g_zViewActiveConnection` (`NULL` = `none`). -/
  activeConnection : Option ConnId
  /-- Global `g_zViewLatestActiveConnectionMode` (`NULL` = `none`). -/
  latestActiveConnectionMode : Option ZVMode
  /-- Global `g_zViewCurrentConnectionModeIndex` (only ever incremented and
  reduced `% numSupportedModes`, hence non-negative). -/
  currentConnectionModeIndex : Nat
  /-- Global `g_zViewVideoRecordingLatestState` — a single last-known state shared by all
  connections. -/
  videoRecordingLatestState : ZVVideoRecordingState
  /-- Globals `g_windowWidth` / `g_windowHeight`. -/
  windowWidth : Nat
  windowHeight : Nat
  /-- Globals `g_zViewStandardModeImageWidth` / `...Height` (`ZSUInt16`). -/
  standardModeImageWidth : Nat
  standardModeImageHeight : Nat
  /-- Globals `g_zViewStandardModeViewportHandle` / `...FrustumHandle`. -/
  standardModeViewportHandle : Nat
  standardModeFrustumHandle : Nat
  /-- Global `g_zViewStandardModeFrameNumber` (`ZSUInt64`). -/
  standardModeFrameNumber : Nat
  standardModeGlFramebufferId : Nat
  standardModeColorGlTextureId : Nat
  standardModeDepthGlRenderbufferId : Nat
  /-- Globals `g_zViewAugmentedRealityModeImageWidth` / `...Height` (`ZSUInt16`). -/
  augmentedRealityModeImageWidth : Nat
  augmentedRealityModeImageHeight : Nat
  augmentedRealityModeMaskVertexArrayId : Nat
  augmentedRealityModeMaskVertexArrayBufferId : Nat
  augmentedRealityModeBackgroundVertexArrayId : Nat
  augmentedRealityModeBackgroundVertexArrayBufferId : Nat
  augmentedRealityModeMaskGlFramebufferId : Nat
  augmentedRealityModeGlFramebufferId : Nat
  augmentedRealityModeColorGlTextureId : Nat
  augmentedRealityModeDepthStencilGlRenderbufferId : Nat
deriving DecidableEq, Repr

/-- The observable calls the presenter makes into the zView transport (and
its log output).  The zc/gl resource create/destroy calls release or
allocate objects whose identities the `Globals` fields record, so they are
mirrored by the field updates themselves and not repeated as actions. -/
inductive Action where
  | acceptConnection (c : ConnId)
  | closeConnection (c : ConnId) (reason : ZVCloseReason)
  | destroyConnection (c : ConnId)
  | setNodeStatus (connected : Bool)
  | beginSettingsBatch
  | setSettingU16 (key : ZVSettingKey) (value : Nat)
  | setSettingF32 (key : ZVSettingKey) (value : ℚ)
  | endSettingsBatch
  | completeModeSetupPhase (phase : ZVModeSetupPhase)
  | setConnectionMode (m : ZVMode)
  | setFrameDataU64 (frameNumber : Nat)
  | sendFrame (frameNumber : Nat)
  | releaseReceivedFrame
  | logVideoRecordingTransition (oldState newState : ZVVideoRecordingState)
  | logVideoRecordingErrorCode (code : Nat)
  | clearVideoRecordingError
deriving DecidableEq, Repr

/-! ## Mode teardown

`tearDownZviewStandardMode` (BasicPresenterSample.cpp:3415-3451) and
`tearDownZviewAugmentedRealityMode` (3632-3694) release each zc/gl object
whose recorded handle is non-`NULL`/non-zero and zero the handle;
`tearDownZviewMode` (3282-3305) dispatches on
`g_zViewLatestActiveConnectionMode` and then clears it. -/

/-- Function `tearDownZviewStandardMode`: destroy the viewport (clearing viewport
and frustum handles) and delete the framebuffer, color texture, and depth
renderbuffer, each only if currently allocated. -/
def tearDownZviewStandardMode (g : Globals) : Globals :=
  let g1 :=
    if g.standardModeViewportHandle ≠ 0 then
      { g with standardModeViewportHandle := 0, standardModeFrustumHandle := 0 }
    else g
  let g2 :=
    if g1.standardModeGlFramebufferId ≠ 0 then
      { g1 with standardModeGlFramebufferId := 0 }
    else g1
  let g3 :=
    if g2.standardModeColorGlTextureId ≠ 0 then
      { g2 with standardModeColorGlTextureId := 0 }
    else g2
  if g3.standardModeDepthGlRenderbufferId ≠ 0 then
    { g3 with standardModeDepthGlRenderbufferId := 0 }
  else g3

/-- Release step of `tearDownZviewAugmentedRealityMode` for the mask
vertex array: one `if (id != 0) { glDelete...; id = 0; }` block. -/
def releaseArMaskVertexArray (g : Globals) : Globals :=
  if g.augmentedRealityModeMaskVertexArrayId ≠ 0 then
    { g with augmentedRealityModeMaskVertexArrayId := 0 }
  else g

/-- Release step for the mask vertex array buffer. -/
def releaseArMaskVertexArrayBuffer (g : Globals) : Globals :=
  if g.augmentedRealityModeMaskVertexArrayBufferId ≠ 0 then
    { g with augmentedRealityModeMaskVertexArrayBufferId := 0 }
  else g

/-- Release step for the background vertex array. -/
def releaseArBackgroundVertexArray (g : Globals) : Globals :=
  if g.augmentedRealityModeBackgroundVertexArrayId ≠ 0 then
    { g with augmentedRealityModeBackgroundVertexArrayId := 0 }
  else g

/-- Release step for the background vertex array buffer. -/
def releaseArBackgroundVertexArrayBuffer (g : Globals) : Globals :=
  if g.augmentedRealityModeBackgroundVertexArrayBufferId ≠ 0 then
    { g with augmentedRealityModeBackgroundVertexArrayBufferId := 0 }
  else g

/-- Release step for the mask framebuffer. -/
def releaseArMaskFramebuffer (g : Globals) : Globals :=
  if g.augmentedRealityModeMaskGlFramebufferId ≠ 0 then
    { g with augmentedRealityModeMaskGlFramebufferId := 0 }
  else g

/-- Release step for the main AR framebuffer. -/
def releaseArFramebuffer (g : Globals) : Globals :=
  if g.augmentedRealityModeGlFramebufferId ≠ 0 then
    { g with augmentedRealityModeGlFramebufferId := 0 }
  else g

/-- Release step for the AR color texture. -/
def releaseArColorTexture (g : Globals) : Globals :=
  if g.augmentedRealityModeColorGlTextureId ≠ 0 then
    { g with augmentedRealityModeColorGlTextureId := 0 }
  else g

/-- Release step for the AR depth/stencil renderbuffer. -/
def releaseArDepthStencilRenderbuffer (g : Globals) : Globals :=
  if g.augmentedRealityModeDepthStencilGlRenderbufferId ≠ 0 then
    { g with augmentedRealityModeDepthStencilGlRenderbufferId := 0 }
  else g

/-- Function `tearDownZviewAugmentedRealityMode`: delete the mask and background
vertex arrays/buffers, the two framebuffers, the color texture, and the
depth/stencil renderbuffer, each only if currently allocated, in source
order. -/
def tearDownZviewAugmentedRealityMode (g : Globals) : Globals :=
  releaseArDepthStencilRenderbuffer
    (releaseArColorTexture
      (releaseArFramebuffer
        (releaseArMaskFramebuffer
          (releaseArBackgroundVertexArrayBuffer
            (releaseArBackgroundVertexArray
              (releaseArMaskVertexArrayBuffer
                (releaseArMaskVertexArray g)))))))

/-- Function `tearDownZviewMode`: tear down the latest active mode's resources (if
any) and clear `g_zViewLatestActiveConnectionMode`. -/
def tearDownZviewMode (g : Globals) : Globals :=
  let g1 :=
    match g.latestActiveConnectionMode with
    | some ZVMode.standard => tearDownZviewStandardMode g
    | some ZVMode.augmentedReality => tearDownZviewAugmentedRealityMode g
    | none => g
  { g1 with latestActiveConnectionMode := none }

/-! ## Clamped increment (`incrementZviewSettingClampedF32`)

The C++ reads the current `f32` setting value, adds the increment, clamps
the sum into `[min, max]` with two comparisons, and writes the result
back.  The read/write pair is modelled by taking the current value as an
argument and returning the written value. -/

/-- Function `incrementZviewSettingClampedF32` (BasicPresenterSample.cpp:2661-2689):
`settingValue += increment; if (settingValue < min) settingValue = min;
else if (settingValue > max) settingValue = max;` then write back. -/
def incrementZviewSettingClampedF32 (settingValue increment min max : ℚ) : ℚ :=
  let v := settingValue + increment
  if v < min then min
  else if v > max then max
  else v

/-- Folding a sequence of increments through the store: each operation
reads the value the previous one wrote. -/
def incrementSequence (start : ℚ) (min max : ℚ) (increments : List ℚ) : ℚ :=
  increments.foldl (fun v inc => incrementZviewSettingClampedF32 v inc min max) start

/-- Initial values of the globals (BasicPresenterSample.cpp:270-385). -/
def initialGlobals : Globals where
  activeConnection := none
  latestActiveConnectionMode := none
  currentConnectionModeIndex := 0
  videoRecordingLatestState := ZVVideoRecordingState.notAvailable
  windowWidth := 1024
  windowHeight := 768
  standardModeImageWidth := 0
  standardModeImageHeight := 0
  standardModeViewportHandle := 0
  standardModeFrustumHandle := 0
  standardModeFrameNumber := 0
  standardModeGlFramebufferId := 0
  standardModeColorGlTextureId := 0
  standardModeDepthGlRenderbufferId := 0
  augmentedRealityModeImageWidth := 0
  augmentedRealityModeImageHeight := 0
  augmentedRealityModeMaskVertexArrayId := 0
  augmentedRealityModeMaskVertexArrayBufferId := 0
  augmentedRealityModeBackgroundVertexArrayId := 0
  augmentedRealityModeBackgroundVertexArrayBufferId := 0
  augmentedRealityModeMaskGlFramebufferId := 0
  augmentedRealityModeGlFramebufferId := 0
  augmentedRealityModeColorGlTextureId := 0
  augmentedRealityModeDepthStencilGlRenderbufferId := 0

/-! ## Remote-visible settings (spec-modelled batch semantics) -/

/-- The width/height settings pair as the remote side can observe it. -/
structure RemoteSettingsView where
  imageWidth : Nat
  imageHeight : Nat
deriving DecidableEq, Repr

/-- Modelled from the spec: the settings-batch semantics of
`zvBeginSettingsBatch`/`zvSetSettingU16`/`zvEndSettingsBatch` live in the
zView runtime, which is not part of this repository.  Per the spec,
"Settings writes outside an explicit batch commit immediately and
independently; writes inside a batch are buffered locally and flushed to
the remote side as one atomic unit on `endBatch`."  The state is the
remote-visible width/height pair together with the pending batch buffer
while a batch is open. -/
def applyRemoteSettingsAction
    (p : RemoteSettingsView × Option RemoteSettingsView) (a : Action) :
    RemoteSettingsView × Option RemoteSettingsView :=
  match a with
  | Action.beginSettingsBatch => (p.1, some p.1)
  | Action.endSettingsBatch =>
    match p.2 with
    | some buffered => (buffered, none)
    | none => p
  | Action.setSettingU16 ZVSettingKey.imageWidth v =>
    match p.2 with
    | some buffered => (p.1, some { buffered with imageWidth := v })
    | none => ({ p.1 with imageWidth := v }, none)
  | Action.setSettingU16 ZVSettingKey.imageHeight v =>
    match p.2 with
    | some buffered => (p.1, some { buffered with imageHeight := v })
    | none => ({ p.1 with imageHeight := v }, none)
  | _ => p

/-- The remote-visible width/height pair after the remote side has
processed a list of emitted actions, starting outside any batch. -/
def remoteVisibleAfter (v : RemoteSettingsView) (acts : List Action) :
    RemoteSettingsView :=
  (acts.foldl applyRemoteSettingsAction (v, none)).1

/-! ## Settings and resolution change -/

/-- Function `handleZviewStandardModeImageResolutionChange`
(BasicPresenterSample.cpp:2692-2744): if there is an active connection
and the standard-mode image resolution differs from the window size,
write the new width and height inside one settings batch and record them
locally. -/
def handleZviewStandardModeImageResolutionChange (g : Globals) :
    Globals × List Action :=
  if g.activeConnection = none then (g, [])
  else if g.standardModeImageWidth = g.windowWidth ∧
      g.standardModeImageHeight = g.windowHeight then (g, [])
  else
    ({ g with standardModeImageWidth := g.windowWidth,
              standardModeImageHeight := g.windowHeight },
      [Action.beginSettingsBatch,
        Action.setSettingU16 ZVSettingKey.imageWidth g.windowWidth,
        Action.setSettingU16 ZVSettingKey.imageHeight g.windowHeight,
        Action.endSettingsBatch])

/-! ## Mode setup -/

/-- Oracle inputs of `setUpZviewStandardMode`: the handles returned by
`zcCreateViewport`/`zcGetFrustum`, the identifiers returned by the
`glGen*` calls, and the `glCheckFramebufferStatus` outcome. -/
structure StandardModeSetupInputs where
  newViewportHandle : Nat
  newFrustumHandle : Nat
  newColorTextureId : Nat
  newDepthRenderbufferId : Nat
  newFramebufferId : Nat
  framebufferComplete : Bool
deriving DecidableEq, Repr

/-- Function `setUpZviewStandardMode` (BasicPresenterSample.cpp:3308-3412):
tear down any previous standard-mode state, create the viewport/frustum
and the color texture, depth renderbuffer, and framebuffer, and — only
once the framebuffer checks complete — reset the standard-mode frame
number to `0`. -/
def setUpZviewStandardMode (g : Globals) (inp : StandardModeSetupInputs) :
    Globals × Bool :=
  let g := tearDownZviewStandardMode g
  let g := { g with
    standardModeViewportHandle := inp.newViewportHandle,
    standardModeFrustumHandle := inp.newFrustumHandle,
    standardModeColorGlTextureId := inp.newColorTextureId,
    standardModeDepthGlRenderbufferId := inp.newDepthRenderbufferId,
    standardModeGlFramebufferId := inp.newFramebufferId }
  if !inp.framebufferComplete then (g, false)
  else ({ g with standardModeFrameNumber := 0 }, true)

/-- Oracle inputs of `setUpZviewAugmentedRealityMode`: the remote-supplied
image resolution read with `zvGetSettingU16`, the identifiers returned by
the `glGen*` calls, and both `glCheckFramebufferStatus` outcomes. -/
structure AugmentedRealityModeSetupInputs where
  remoteImageWidth : Nat
  remoteImageHeight : Nat
  newMaskVertexArrayId : Nat
  newMaskVertexArrayBufferId : Nat
  newBackgroundVertexArrayId : Nat
  newBackgroundVertexArrayBufferId : Nat
  newColorTextureId : Nat
  newDepthStencilRenderbufferId : Nat
  newMaskFramebufferId : Nat
  newFramebufferId : Nat
  maskFramebufferComplete : Bool
  framebufferComplete : Bool
deriving DecidableEq, Repr

/-- Function `setUpZviewAugmentedRealityMode`
(BasicPresenterSample.cpp:3454-3629): tear down any previous AR-mode
state, read the remote image resolution, create the mask/background
vertex arrays and buffers, color texture, depth/stencil renderbuffer,
then the mask framebuffer (failing if incomplete) and the main
framebuffer (failing if incomplete). -/
def setUpZviewAugmentedRealityMode (g : Globals)
    (inp : AugmentedRealityModeSetupInputs) : Globals × Bool :=
  let g := tearDownZviewAugmentedRealityMode g
  let g := { g with
    augmentedRealityModeImageWidth := inp.remoteImageWidth,
    augmentedRealityModeImageHeight := inp.remoteImageHeight,
    augmentedRealityModeMaskVertexArrayId := inp.newMaskVertexArrayId,
    augmentedRealityModeMaskVertexArrayBufferId := inp.newMaskVertexArrayBufferId,
    augmentedRealityModeBackgroundVertexArrayId := inp.newBackgroundVertexArrayId,
    augmentedRealityModeBackgroundVertexArrayBufferId :=
      inp.newBackgroundVertexArrayBufferId,
    augmentedRealityModeColorGlTextureId := inp.newColorTextureId,
    augmentedRealityModeDepthStencilGlRenderbufferId :=
      inp.newDepthStencilRenderbufferId,
    augmentedRealityModeMaskGlFramebufferId := inp.newMaskFramebufferId }
  if !inp.maskFramebufferComplete then (g, false)
  else
    let g := { g with augmentedRealityModeGlFramebufferId := inp.newFramebufferId }
    if !inp.framebufferComplete then (g, false) else (g, true)

/-- Oracle inputs of `setUpZviewMode`: the connection's current mode
(`zvGetConnectionMode`, `NULL` = `none`), setup phase and
awaiting-completion flag (`zvGetConnectionModeSetupPhase`), and the
sub-setup inputs for whichever completion branch runs. -/
structure ModeSetupInputs where
  mode : Option ZVMode
  modeSetupPhase : ZVModeSetupPhase
  isAwaitingCompletion : Bool
  standardSetup : StandardModeSetupInputs
  augmentedRealitySetup : AugmentedRealityModeSetupInputs
deriving DecidableEq, Repr

/-- Function `setUpZviewMode` (BasicPresenterSample.cpp:3122-3279): on a
mode switch, tear down the old mode and remember the new one; do nothing
while awaiting remote completion; otherwise perform phase work.  In the
Initialization phase for standard mode this writes the window width and
height as one settings batch, records them locally, and completes the
phase; for AR mode it completes the phase immediately.  In the Completion
phase it runs the mode-specific setup and completes the phase. -/
def setUpZviewMode (g : Globals) (inp : ModeSetupInputs) :
    Globals × List Action × Bool :=
  let g :=
    if inp.mode ≠ g.latestActiveConnectionMode then
      { tearDownZviewMode g with latestActiveConnectionMode := inp.mode }
    else g
  if inp.isAwaitingCompletion then (g, [], true)
  else
    match inp.modeSetupPhase with
    | ZVModeSetupPhase.initialization =>
      match inp.mode with
      | some ZVMode.standard =>
        ({ g with standardModeImageWidth := g.windowWidth,
                  standardModeImageHeight := g.windowHeight },
          [Action.beginSettingsBatch,
            Action.setSettingU16 ZVSettingKey.imageWidth g.windowWidth,
            Action.setSettingU16 ZVSettingKey.imageHeight g.windowHeight,
            Action.endSettingsBatch,
            Action.completeModeSetupPhase ZVModeSetupPhase.initialization],
          true)
      | some ZVMode.augmentedReality =>
        (g, [Action.completeModeSetupPhase ZVModeSetupPhase.initialization], true)
      | none => (g, [], true)
    | ZVModeSetupPhase.completion =>
      match inp.mode with
      | some ZVMode.standard =>
        let r := setUpZviewStandardMode g inp.standardSetup
        if r.2 then
          (r.1, [Action.completeModeSetupPhase ZVModeSetupPhase.completion], true)
        else (r.1, [], false)
      | some ZVMode.augmentedReality =>
        let r := setUpZviewAugmentedRealityMode g inp.augmentedRealitySetup
        if r.2 then
          (r.1, [Action.completeModeSetupPhase ZVModeSetupPhase.completion], true)
        else (r.1, [], false)
      | none => (g, [], true)

/-! ## Connection lifecycle -/

/-- Function `processNewZviewConnection`
(BasicPresenterSample.cpp:2126-2169): do nothing if the connection is
already active; accept and record it (setting the node status to
connected) if there is no active connection; otherwise close it with the
connection-rejected reason. -/
def processNewZviewConnection (g : Globals) (connection : ConnId) :
    Globals × List Action :=
  if some connection = g.activeConnection then (g, [])
  else
    match g.activeConnection with
    | none =>
      ({ g with activeConnection := some connection },
        [Action.acceptConnection connection, Action.setNodeStatus true])
    | some _ =>
      (g, [Action.closeConnection connection ZVCloseReason.connectionRejected])

/-- Function `processZviewVideoRecording`
(BasicPresenterSample.cpp:2172-2225): read the connection's current
video-recording state; log a transition message if it differs from the
(single, global) last-known state; if the state is `error`, read and log
the error code and clear the error; finally remember the observed state
as the last-known state. -/
def processZviewVideoRecording (g : Globals)
    (videoRecordingState : ZVVideoRecordingState)
    (videoRecordingError : Nat) : Globals × List Action :=
  let transitionActs :=
    if videoRecordingState ≠ g.videoRecordingLatestState then
      [Action.logVideoRecordingTransition
        g.videoRecordingLatestState videoRecordingState]
    else []
  let errorActs :=
    if videoRecordingState = ZVVideoRecordingState.error then
      [Action.logVideoRecordingErrorCode videoRecordingError,
        Action.clearVideoRecordingError]
    else []
  ({ g with videoRecordingLatestState := videoRecordingState },
    transitionActs ++ errorActs)

/-- Per-tick oracle inputs of `updateZviewConnection` for one connection:
its reported state, the mode-setup inputs (used only in `modeSetup`), and
the observed video-recording state and error code. -/
structure ConnectionTickInputs where
  connectionState : ZVConnectionState
  modeSetup : ModeSetupInputs
  videoRecordingState : ZVVideoRecordingState
  videoRecordingError : Nat
deriving DecidableEq, Repr

/-- Function `updateZviewConnection` (BasicPresenterSample.cpp:1975-2123):
dispatch on the connection's reported state — acceptance handling in
`awaitingConnectionAcceptance`, mode teardown in `noMode`, mode setup in
`modeSetup`, and, for `closed`/`error`, clearing the active-connection
pointer (with mode teardown and a node-status reset) when the closed
connection is the active one, then destroying the connection — and then
unconditionally poll the video-recording sub-state.  The `Bool` result is
the C++ return value (`false` aborts the caller's tick). -/
def updateZviewConnection (g : Globals) (connection : ConnId)
    (inp : ConnectionTickInputs) : Globals × List Action × Bool :=
  let dispatched : Globals × List Action × Bool :=
    match inp.connectionState with
    | ZVConnectionState.connectionInitialization => (g, [], true)
    | ZVConnectionState.awaitingConnectionAcceptance =>
      let r := processNewZviewConnection g connection
      (r.1, r.2, true)
    | ZVConnectionState.switchingModes => (g, [], true)
    | ZVConnectionState.noMode => (tearDownZviewMode g, [], true)
    | ZVConnectionState.modeSetup => setUpZviewMode g inp.modeSetup
    | ZVConnectionState.modeActive => (g, [], true)
    | ZVConnectionState.modePaused => (g, [], true)
    | ZVConnectionState.modeResuming => (g, [], true)
    | ZVConnectionState.processingModeSettingsChange => (g, [], true)
    | ZVConnectionState.closed =>
      if g.activeConnection = some connection then
        (tearDownZviewMode { g with activeConnection := none },
          [Action.setNodeStatus false, Action.destroyConnection connection],
          true)
      else (g, [Action.destroyConnection connection], true)
    | ZVConnectionState.error =>
      if g.activeConnection = some connection then
        (tearDownZviewMode { g with activeConnection := none },
          [Action.setNodeStatus false, Action.destroyConnection connection],
          true)
      else (g, [Action.destroyConnection connection], true)
  if dispatched.2.2 then
    let vr :=
      processZviewVideoRecording dispatched.1 inp.videoRecordingState
        inp.videoRecordingError
    (vr.1, dispatched.2.1 ++ vr.2, true)
  else (dispatched.1, dispatched.2.1, false)

/-- Ghost accounting of which connections currently hold accepted status,
read off the emitted transport actions: `zvAcceptConnection` grants it,
`zvCloseConnection`/`zvDestroyConnection` revoke it. -/
def applyAcceptanceAction (accepted : List ConnId) : Action → List ConnId
  | Action.acceptConnection c => c :: accepted
  | Action.closeConnection c _ => accepted.erase c
  | Action.destroyConnection c => accepted.erase c
  | _ => accepted

/-- The accepted-connection list after a list of emitted actions. -/
def acceptedAfter (accepted : List ConnId) (acts : List Action) : List ConnId :=
  acts.foldl applyAcceptanceAction accepted

/-- Run `updateZviewConnection` over a sequence of per-connection state
reports, threading the globals and the ghost accepted list. -/
def runZviewConnectionReports (p : Globals × List ConnId)
    (reports : List (ConnId × ConnectionTickInputs)) : Globals × List ConnId :=
  reports.foldl
    (fun p r =>
      let u := updateZviewConnection p.1 r.1 r.2
      (u.1, acceptedAfter p.2 u.2.1))
    p

/-! ## Frame pump (`drawZview`) -/

/-- A frame received from the viewer in AR mode; only the frame-number
tag matters to the claims (the pose and the five intrinsics scalars feed
the float-valued geometry engine, which is out of scope). -/
structure ReceivedFrame where
  frameNumber : Nat
deriving DecidableEq, Repr

/-- Per-tick oracle inputs of `drawZview`: the active connection's state
and mode, the incoming frame (AR mode; `none` when `zvReceiveFrame`
yields no frame), and whether `zvGetNextFrameToSend` yields a free
outgoing slot. -/
structure DrawTickInputs where
  connectionState : ZVConnectionState
  mode : Option ZVMode
  receivedFrame : Option ReceivedFrame
  outgoingFrameAvailable : Bool
deriving DecidableEq, Repr

/-- Function `drawZview` (BasicPresenterSample.cpp:3697-3968).  Standard
mode: skip the tick when no outgoing slot is free; otherwise tag the
frame with `g_zViewStandardModeFrameNumber`, send it, increment the
counter (`ZSUInt64`, so modulo `2^64`), then apply any render-surface
resolution change.  AR mode: skip the tick when no incoming frame is
available; otherwise read its tag, release it, and — if an outgoing slot
is free — tag the outgoing frame with the received tag and send it. -/
def drawZview (g : Globals) (inp : DrawTickInputs) : Globals × List Action :=
  if g.activeConnection = none then (g, [])
  else if inp.connectionState ≠ ZVConnectionState.modeActive then (g, [])
  else
    match inp.mode with
    | some ZVMode.standard =>
      if !inp.outgoingFrameAvailable then (g, [])
      else
        let sendActs :=
          [Action.setFrameDataU64 g.standardModeFrameNumber,
            Action.sendFrame g.standardModeFrameNumber]
        let g := { g with
          standardModeFrameNumber := (g.standardModeFrameNumber + 1) % u64Size }
        let r := handleZviewStandardModeImageResolutionChange g
        (r.1, sendActs ++ r.2)
    | some ZVMode.augmentedReality =>
      match inp.receivedFrame with
      | none => (g, [])
      | some receivedFrame =>
        if !inp.outgoingFrameAvailable then (g, [Action.releaseReceivedFrame])
        else
          (g, [Action.releaseReceivedFrame,
            Action.setFrameDataU64 receivedFrame.frameNumber,
            Action.sendFrame receivedFrame.frameNumber])
    | none => (g, [])

/-- The frame-number tags of the frames actually sent in an action list. -/
def sentFrameTags (acts : List Action) : List Nat :=
  acts.filterMap fun a =>
    match a with
    | Action.sendFrame n => some n
    | _ => none

/-- A standard-mode `modeActive` draw tick with the given outgoing-slot
availability. -/
def stdModeActiveTick (outgoingFrameAvailable : Bool) : DrawTickInputs where
  connectionState := ZVConnectionState.modeActive
  mode := some ZVMode.standard
  receivedFrame := none
  outgoingFrameAvailable := outgoingFrameAvailable

/-- Run `drawZview` over consecutive main-loop ticks, accumulating the
emitted actions. -/
def runDrawTicks (g : Globals) (ticks : List DrawTickInputs) :
    Globals × List Action :=
  ticks.foldl
    (fun p t =>
      let d := drawZview p.1 t
      (d.1, p.2 ++ d.2))
    (g, [])

/-! ## Mode switching (`switchZviewMode`) -/

/-- The search loop of `switchZviewMode`
(BasicPresenterSample.cpp:4413-4439): starting after the last-used index
and wrapping modulo the number of supported modes, find the first
available supported mode, trying at most `numSupportedModes` entries.
The fuel argument is `numSupportedModes - numModesTried`. -/
def switchZviewModeLoop (supportedModes : List ZVSupportedMode) :
    Nat → Nat → Nat × Option ZVMode
  | idx, 0 => (idx, none)
  | idx, fuel + 1 =>
    let idx1 := (idx + 1) % supportedModes.length
    match supportedModes[idx1]? with
    | none => (idx1, none)
    | some m =>
      if m.availability = ZVModeAvailability.available then (idx1, some m.mode)
      else switchZviewModeLoop supportedModes idx1 fuel

/-- Function `switchZviewMode` (BasicPresenterSample.cpp:4372-4442): do
nothing without an active connection or outside the
`noMode`/`modeActive` states; otherwise advance the mode index past the
last-used index, wrapping and skipping unavailable entries, and issue
`zvSetConnectionMode` for the first available supported mode (no call
when none is available or the supported-mode list is empty). -/
def switchZviewMode (g : Globals) (state : ZVConnectionState)
    (supportedModes : List ZVSupportedMode) : Globals × List Action :=
  if g.activeConnection = none then (g, [])
  else if state ≠ ZVConnectionState.noMode ∧
      state ≠ ZVConnectionState.modeActive then (g, [])
  else
    let r :=
      switchZviewModeLoop supportedModes g.currentConnectionModeIndex
        supportedModes.length
    match r.2 with
    | some m =>
      ({ g with currentConnectionModeIndex := r.1 },
        [Action.setConnectionMode m])
    | none => ({ g with currentConnectionModeIndex := r.1 }, [])

/-- Declarative reading of the mode-switch search used to state C6: the
indices visited are `(lastIndex + 1 + k) % n` for `k < n`, in order. -/
def nextAvailableModeSearchOrder (supportedModes : List ZVSupportedMode)
    (lastIndex : Nat) : List Nat :=
  (List.range supportedModes.length).map
    fun k => (lastIndex + 1 + k) % supportedModes.length

/-- The first available supported mode in wrapped search order after
`lastIndex`, or `none` when no supported mode is available. -/
def nextAvailableModeSpec (supportedModes : List ZVSupportedMode)
    (lastIndex : Nat) : Option ZVMode :=
  (nextAvailableModeSearchOrder supportedModes lastIndex).findSome? fun i =>
    match supportedModes[i]? with
    | some m =>
      if m.availability = ZVModeAvailability.available then some m.mode else none
    | none => none

/-! ## AR overlay control keys -/

/-- A settings operation requested by one overlay-control key press. -/
inductive OverlayKeyAction where
  | incrementClamped (key : ZVSettingKey) (increment min max : ℚ)
  | setSetting (key : ZVSettingKey) (value : ℚ)
deriving DecidableEq, Repr

/-- Function `processZviewAugmentedRealityModeOverlayControlKeyPress`
(BasicPresenterSample.cpp:2396-2582), after its guards (active
connection, `modeActive`, AR mode, control key held): the settings
operation issued for each key.  All four offset keys clamp to
`±g_zViewAugmentedRealityModeImageWidth`; the AR image height is passed
alongside to record that the source reads only the width.  The scale
keys use `0.01f` steps, rendered exactly as `1/100` here. -/
def processZviewAugmentedRealityModeOverlayControlKeyPress
    (arImageWidth arImageHeight : Nat) (key : Char) :
    Option OverlayKeyAction :=
  match key with
  | 'A' => some (OverlayKeyAction.incrementClamped ZVSettingKey.overlayOffsetX
      (-1) (-(arImageWidth : ℚ)) (arImageWidth : ℚ))
  | 'D' => some (OverlayKeyAction.incrementClamped ZVSettingKey.overlayOffsetX
      1 (-(arImageWidth : ℚ)) (arImageWidth : ℚ))
  | 'S' => some (OverlayKeyAction.incrementClamped ZVSettingKey.overlayOffsetY
      (-1) (-(arImageWidth : ℚ)) (arImageWidth : ℚ))
  | 'W' => some (OverlayKeyAction.incrementClamped ZVSettingKey.overlayOffsetY
      1 (-(arImageWidth : ℚ)) (arImageWidth : ℚ))
  | 'Q' => some (OverlayKeyAction.setSetting ZVSettingKey.overlayOffsetX 0)
  | 'E' => some (OverlayKeyAction.setSetting ZVSettingKey.overlayOffsetY 0)
  | 'F' => some (OverlayKeyAction.incrementClamped ZVSettingKey.overlayScaleX
      (-(1 / 100)) (1 / 100) 10)
  | 'H' => some (OverlayKeyAction.incrementClamped ZVSettingKey.overlayScaleX
      (1 / 100) (1 / 100) 10)
  | 'G' => some (OverlayKeyAction.incrementClamped ZVSettingKey.overlayScaleY
      (-(1 / 100)) (1 / 100) 10)
  | 'T' => some (OverlayKeyAction.incrementClamped ZVSettingKey.overlayScaleY
      (1 / 100) (1 / 100) 10)
  | 'R' => some (OverlayKeyAction.setSetting ZVSettingKey.overlayScaleX 1)
  | 'Y' => some (OverlayKeyAction.setSetting ZVSettingKey.overlayScaleY 1)
  | _ => none

/-! ## Video-recording sweep over the connection list -/

/-- One engine tick's video-recording handling across the connection
list: `processZviewVideoRecording` runs once per connection, every
invocation reading and updating the same global last-known state.  Each
observation is the connection's `(state, error code)` pair. -/
def processVideoRecordingSweep (g : Globals)
    (observations : List (ZVVideoRecordingState × Nat)) :
    Globals × List Action :=
  observations.foldl
    (fun p o =>
      let q := processZviewVideoRecording p.1 o.1 o.2
      (q.1, p.2 ++ q.2))
    (g, [])

/-- The log/clear actions a sweep should emit when transitions are
edge-detected against a single shared last-known state threaded through
the observation sequence. -/
def videoRecordingExpectedActions :
    ZVVideoRecordingState → List (ZVVideoRecordingState × Nat) → List Action
  | _, [] => []
  | lastKnown, (cur, code) :: rest =>
    ((if cur ≠ lastKnown then
        [Action.logVideoRecordingTransition lastKnown cur]
      else []) ++
      (if cur = ZVVideoRecordingState.error then
        [Action.logVideoRecordingErrorCode code,
          Action.clearVideoRecordingError]
      else [])) ++
    videoRecordingExpectedActions cur rest

/-- The claim's reading of edge-triggered transition logging: each session
keeps its own last-known state, and a transition is logged for a session
exactly when that session's newly observed state differs from that same
session's previous observation. -/
def perSessionTransitionLogs
    (previousObserved observed : List ZVVideoRecordingState) : List Bool :=
  List.zipWith (fun prev cur => decide (cur ≠ prev)) previousObserved observed

/-! ## Theorems -/

/-! ### Teardown characterizations (shared helpers) -/

theorem tearDownZviewStandardMode_eq (g : Globals) :
    tearDownZviewStandardMode g =
      { g with standardModeViewportHandle := 0,
               standardModeFrustumHandle :=
                 if g.standardModeViewportHandle = 0 then
                   g.standardModeFrustumHandle
                 else 0,
               standardModeGlFramebufferId := 0,
               standardModeColorGlTextureId := 0,
               standardModeDepthGlRenderbufferId := 0 } := by
  cases g
  unfold tearDownZviewStandardMode
  dsimp only
  split_ifs <;> simp_all

theorem releaseArMaskVertexArray_eq (g : Globals) :
    releaseArMaskVertexArray g =
      { g with augmentedRealityModeMaskVertexArrayId := 0 } := by
  cases g
  unfold releaseArMaskVertexArray
  split_ifs with h <;> simp_all

theorem releaseArMaskVertexArrayBuffer_eq (g : Globals) :
    releaseArMaskVertexArrayBuffer g =
      { g with augmentedRealityModeMaskVertexArrayBufferId := 0 } := by
  cases g
  unfold releaseArMaskVertexArrayBuffer
  split_ifs with h <;> simp_all

theorem releaseArBackgroundVertexArray_eq (g : Globals) :
    releaseArBackgroundVertexArray g =
      { g with augmentedRealityModeBackgroundVertexArrayId := 0 } := by
  cases g
  unfold releaseArBackgroundVertexArray
  split_ifs with h <;> simp_all

theorem releaseArBackgroundVertexArrayBuffer_eq (g : Globals) :
    releaseArBackgroundVertexArrayBuffer g =
      { g with augmentedRealityModeBackgroundVertexArrayBufferId := 0 } := by
  cases g
  unfold releaseArBackgroundVertexArrayBuffer
  split_ifs with h <;> simp_all

theorem releaseArMaskFramebuffer_eq (g : Globals) :
    releaseArMaskFramebuffer g =
      { g with augmentedRealityModeMaskGlFramebufferId := 0 } := by
  cases g
  unfold releaseArMaskFramebuffer
  split_ifs with h <;> simp_all

theorem releaseArFramebuffer_eq (g : Globals) :
    releaseArFramebuffer g =
      { g with augmentedRealityModeGlFramebufferId := 0 } := by
  cases g
  unfold releaseArFramebuffer
  split_ifs with h <;> simp_all

theorem releaseArColorTexture_eq (g : Globals) :
    releaseArColorTexture g =
      { g with augmentedRealityModeColorGlTextureId := 0 } := by
  cases g
  unfold releaseArColorTexture
  split_ifs with h <;> simp_all

theorem releaseArDepthStencilRenderbuffer_eq (g : Globals) :
    releaseArDepthStencilRenderbuffer g =
      { g with augmentedRealityModeDepthStencilGlRenderbufferId := 0 } := by
  cases g
  unfold releaseArDepthStencilRenderbuffer
  split_ifs with h <;> simp_all

theorem tearDownZviewAugmentedRealityMode_eq (g : Globals) :
    tearDownZviewAugmentedRealityMode g =
      { g with augmentedRealityModeMaskVertexArrayId := 0,
               augmentedRealityModeMaskVertexArrayBufferId := 0,
               augmentedRealityModeBackgroundVertexArrayId := 0,
               augmentedRealityModeBackgroundVertexArrayBufferId := 0,
               augmentedRealityModeMaskGlFramebufferId := 0,
               augmentedRealityModeGlFramebufferId := 0,
               augmentedRealityModeColorGlTextureId := 0,
               augmentedRealityModeDepthStencilGlRenderbufferId := 0 } := by
  unfold tearDownZviewAugmentedRealityMode
  rw [releaseArMaskVertexArray_eq, releaseArMaskVertexArrayBuffer_eq,
    releaseArBackgroundVertexArray_eq, releaseArBackgroundVertexArrayBuffer_eq,
    releaseArMaskFramebuffer_eq, releaseArFramebuffer_eq,
    releaseArColorTexture_eq, releaseArDepthStencilRenderbuffer_eq]

theorem tearDownZviewMode_activeConnection (g : Globals) :
    (tearDownZviewMode g).activeConnection = g.activeConnection := by
  unfold tearDownZviewMode
  cases hl : g.latestActiveConnectionMode with
  | none => rfl
  | some m =>
    cases m <;>
      simp [tearDownZviewStandardMode_eq, tearDownZviewAugmentedRealityMode_eq]

theorem tearDownZviewMode_windowSize (g : Globals) :
    (tearDownZviewMode g).windowWidth = g.windowWidth ∧
      (tearDownZviewMode g).windowHeight = g.windowHeight := by
  unfold tearDownZviewMode
  cases hl : g.latestActiveConnectionMode with
  | none => exact ⟨rfl, rfl⟩
  | some m =>
    cases m <;>
      simp [tearDownZviewStandardMode_eq, tearDownZviewAugmentedRealityMode_eq]

theorem tearDownZviewMode_latest_none (g : Globals) :
    (tearDownZviewMode g).latestActiveConnectionMode = none := rfl

theorem tearDownZviewMode_of_latest_none (g : Globals)
    (h : g.latestActiveConnectionMode = none) : tearDownZviewMode g = g := by
  unfold tearDownZviewMode
  rw [h]
  cases g
  simp_all

theorem incrementClamped_mem_of_le {settingValue increment min max : ℚ}
    (h : min ≤ max) :
    min ≤ incrementZviewSettingClampedF32 settingValue increment min max ∧
      incrementZviewSettingClampedF32 settingValue increment min max ≤ max := by
  unfold incrementZviewSettingClampedF32
  dsimp only
  split
  · exact ⟨le_refl _, h⟩
  · split
    · exact ⟨h, le_refl _⟩
    · constructor
      · exact le_of_not_lt (by assumption)
      · exact le_of_not_lt (by assumption)

theorem incrementClamped_toward_sign {settingValue increment min max : ℚ} :
    (0 ≤ increment →
      settingValue ≤ incrementZviewSettingClampedF32 settingValue increment min max ∨
        incrementZviewSettingClampedF32 settingValue increment min max = max) ∧
    (increment ≤ 0 →
      incrementZviewSettingClampedF32 settingValue increment min max ≤ settingValue ∨
        incrementZviewSettingClampedF32 settingValue increment min max = min) := by
  unfold incrementZviewSettingClampedF32
  dsimp only
  constructor
  · intro hinc
    split
    · rename_i hlt
      left
      calc settingValue ≤ settingValue + increment := le_add_of_nonneg_right hinc
        _ ≤ min := le_of_lt hlt
    · split
      · right; rfl
      · left; exact le_add_of_nonneg_right hinc
  · intro hinc
    split
    · right; rfl
    · split
      · rename_i hgt
        left
        calc max ≤ settingValue + increment := le_of_lt hgt
          _ ≤ settingValue := add_le_of_nonpos_right hinc
      · left; exact add_le_of_nonpos_right hinc

theorem incrementSequence_cons (start min max : ℚ) (inc : ℚ) (rest : List ℚ) :
    incrementSequence start min max (inc :: rest) =
      incrementSequence (incrementZviewSettingClampedF32 start inc min max)
        min max rest := rfl

theorem incrementSequence_mem_of_le {start min max : ℚ} (h : min ≤ max)
    {increments : List ℚ} (hne : increments ≠ []) :
    min ≤ incrementSequence start min max increments ∧
      incrementSequence start min max increments ≤ max := by
  induction increments generalizing start with
  | nil => exact absurd rfl hne
  | cons inc rest ih =>
    rw [incrementSequence_cons]
    cases rest with
    | nil => exact incrementClamped_mem_of_le h
    | cons b t => exact ih (by simp)

/-! ### C5: mode teardown is idempotent -/

/-- C5: Calling the mode teardown operation twice in a row with no setup
in between leaves the mode-resource state (latest-active-mode pointer,
viewport/frustum handles, framebuffer/texture/renderbuffer/vertex-array
identifiers — all carried by `Globals`) identical to the state after
calling it once; likewise for both mode-specific teardown functions. -/
theorem tearDownZviewMode_idempotent (g : Globals) :
    tearDownZviewMode (tearDownZviewMode g) = tearDownZviewMode g ∧
    tearDownZviewStandardMode (tearDownZviewStandardMode g) =
      tearDownZviewStandardMode g ∧
    tearDownZviewAugmentedRealityMode (tearDownZviewAugmentedRealityMode g) =
      tearDownZviewAugmentedRealityMode g := by
  refine ⟨?_, ?_, ?_⟩
  · exact tearDownZviewMode_of_latest_none _ (tearDownZviewMode_latest_none g)
  · rw [tearDownZviewStandardMode_eq, tearDownZviewStandardMode_eq]
    cases g
    simp
  · rw [tearDownZviewAugmentedRealityMode_eq, tearDownZviewAugmentedRealityMode_eq]

/-! ### C4: clamped increment is bounded and moves toward the sign -/

/-- C4: With inclusive bounds `min ≤ max`, the clamped-increment
operation writes back a value inside `[min, max]`; a non-negative
increment never moves the value down except to leave it at the upper
bound (and symmetrically for non-positive increments); and along any
non-empty sequence of increments the stored value is inside `[min, max]`
after each operation. -/
theorem incrementZviewSettingClampedF32_bounded_toward_sign
    (settingValue increment min max : ℚ) (h : min ≤ max) :
    (min ≤ incrementZviewSettingClampedF32 settingValue increment min max ∧
      incrementZviewSettingClampedF32 settingValue increment min max ≤ max) ∧
    (0 ≤ increment →
      settingValue ≤ incrementZviewSettingClampedF32 settingValue increment min max ∨
        incrementZviewSettingClampedF32 settingValue increment min max = max) ∧
    (increment ≤ 0 →
      incrementZviewSettingClampedF32 settingValue increment min max ≤ settingValue ∨
        incrementZviewSettingClampedF32 settingValue increment min max = min) ∧
    (∀ increments : List ℚ, increments ≠ [] →
      min ≤ incrementSequence settingValue min max increments ∧
        incrementSequence settingValue min max increments ≤ max) :=
  ⟨incrementClamped_mem_of_le h, incrementClamped_toward_sign.1,
    incrementClamped_toward_sign.2,
    fun _ hne => incrementSequence_mem_of_le h hne⟩

/-- Witness for C4 at the AR overlay X-offset instance: value `5`,
increment `1`, bounds `[-320, 320]`. -/
theorem incrementZviewSettingClampedF32_bounded_toward_sign_witness :
    (-320 : ℚ) ≤ 320 ∧
    (((-320 : ℚ) ≤ incrementZviewSettingClampedF32 5 1 (-320) 320 ∧
      incrementZviewSettingClampedF32 5 1 (-320) 320 ≤ 320) ∧
    ((0 : ℚ) ≤ 1 →
      (5 : ℚ) ≤ incrementZviewSettingClampedF32 5 1 (-320) 320 ∨
        incrementZviewSettingClampedF32 5 1 (-320) 320 = 320) ∧
    ((1 : ℚ) ≤ 0 →
      incrementZviewSettingClampedF32 5 1 (-320) 320 ≤ 5 ∨
        incrementZviewSettingClampedF32 5 1 (-320) 320 = -320) ∧
    (∀ increments : List ℚ, increments ≠ [] →
      (-320 : ℚ) ≤ incrementSequence 5 (-320) 320 increments ∧
        incrementSequence 5 (-320) 320 increments ≤ 320)) :=
  ⟨by decide,
    incrementZviewSettingClampedF32_bounded_toward_sign 5 1 (-320) 320 (by decide)⟩

/-! ### C9: overlay offset bounds are width-derived -/

/-- C9: The AR overlay vertical-offset keys clamp the Y offset into
`[-imageWidth, +imageWidth]` — bounds derived from the negotiated AR
image width, not the image height — and the horizontal-offset keys use
the same width-derived bounds, for every resolution (the right-hand
sides do not mention `arImageHeight`). -/
theorem overlayOffsetKeys_widthDerivedBounds (arImageWidth arImageHeight : Nat) :
    processZviewAugmentedRealityModeOverlayControlKeyPress
        arImageWidth arImageHeight 'W' =
      some (OverlayKeyAction.incrementClamped ZVSettingKey.overlayOffsetY
        1 (-(arImageWidth : ℚ)) (arImageWidth : ℚ)) ∧
    processZviewAugmentedRealityModeOverlayControlKeyPress
        arImageWidth arImageHeight 'S' =
      some (OverlayKeyAction.incrementClamped ZVSettingKey.overlayOffsetY
        (-1) (-(arImageWidth : ℚ)) (arImageWidth : ℚ)) ∧
    processZviewAugmentedRealityModeOverlayControlKeyPress
        arImageWidth arImageHeight 'D' =
      some (OverlayKeyAction.incrementClamped ZVSettingKey.overlayOffsetX
        1 (-(arImageWidth : ℚ)) (arImageWidth : ℚ)) ∧
    processZviewAugmentedRealityModeOverlayControlKeyPress
        arImageWidth arImageHeight 'A' =
      some (OverlayKeyAction.incrementClamped ZVSettingKey.overlayOffsetX
        (-1) (-(arImageWidth : ℚ)) (arImageWidth : ℚ)) :=
  ⟨rfl, rfl, rfl, rfl⟩

/-! ### C2: width/height written as one settings batch -/

theorem setUpZviewModeInitStandard_actions (g : Globals)
    (stdInp : StandardModeSetupInputs) (arInp : AugmentedRealityModeSetupInputs) :
    (setUpZviewMode g
        ⟨some ZVMode.standard, ZVModeSetupPhase.initialization, false,
          stdInp, arInp⟩).2.1 =
      [Action.beginSettingsBatch,
        Action.setSettingU16 ZVSettingKey.imageWidth g.windowWidth,
        Action.setSettingU16 ZVSettingKey.imageHeight g.windowHeight,
        Action.endSettingsBatch,
        Action.completeModeSetupPhase ZVModeSetupPhase.initialization] := by
  by_cases hm : (some ZVMode.standard ≠ g.latestActiveConnectionMode)
  · simp [setUpZviewMode, hm, (tearDownZviewMode_windowSize g).1,
      (tearDownZviewMode_windowSize g).2]
  · rw [not_not] at hm
    simp [setUpZviewMode, hm]

theorem handleZviewStandardModeImageResolutionChange_actions (g : Globals) :
    (handleZviewStandardModeImageResolutionChange g).2 =
      if g.activeConnection = none then []
      else if g.standardModeImageWidth = g.windowWidth ∧
          g.standardModeImageHeight = g.windowHeight then []
      else
        [Action.beginSettingsBatch,
          Action.setSettingU16 ZVSettingKey.imageWidth g.windowWidth,
          Action.setSettingU16 ZVSettingKey.imageHeight g.windowHeight,
          Action.endSettingsBatch] := by
  unfold handleZviewStandardModeImageResolutionChange
  split_ifs <;> rfl

theorem remoteVisibleAfter_batch_prefix (v : RemoteSettingsView) (w h : Nat)
    (tail : List Action) (htail : tail = [] ∨
      tail = [Action.completeModeSetupPhase ZVModeSetupPhase.initialization])
    (n : Nat) :
    remoteVisibleAfter v
        (([Action.beginSettingsBatch,
          Action.setSettingU16 ZVSettingKey.imageWidth w,
          Action.setSettingU16 ZVSettingKey.imageHeight h,
          Action.endSettingsBatch] ++ tail).take n) = v ∨
      remoteVisibleAfter v
        (([Action.beginSettingsBatch,
          Action.setSettingU16 ZVSettingKey.imageWidth w,
          Action.setSettingU16 ZVSettingKey.imageHeight h,
          Action.endSettingsBatch] ++ tail).take n) = ⟨w, h⟩ := by
  rcases htail with rfl | rfl <;>
    rcases n with _ | _ | _ | _ | _ | n
  · left; rfl
  · left; rfl
  · left; rfl
  · left; rfl
  · right; rfl
  · right
    rw [List.take_of_length_le (by simp)]
    rfl
  · left; rfl
  · left; rfl
  · left; rfl
  · left; rfl
  · right; rfl
  · right
    rw [List.take_of_length_le (by simp)]
    rfl

/-- C2: Whenever the presenter writes the negotiated image width and
height (Standard-mode Initialization setup, and render-surface resolution
change), both writes are bracketed by a single
`beginSettingsBatch`/`endSettingsBatch` pair, and — under the
spec-modelled atomic-commit batch semantics `remoteVisibleAfter` — every
prefix of the emitted action trace leaves the remote-visible width/height
pair either fully pre-batch or fully post-batch, never torn. -/
theorem settingsBatch_widthHeight_atomic :
    (∀ (g : Globals) (stdInp : StandardModeSetupInputs)
        (arInp : AugmentedRealityModeSetupInputs),
      (setUpZviewMode g
          ⟨some ZVMode.standard, ZVModeSetupPhase.initialization, false,
            stdInp, arInp⟩).2.1 =
        [Action.beginSettingsBatch,
          Action.setSettingU16 ZVSettingKey.imageWidth g.windowWidth,
          Action.setSettingU16 ZVSettingKey.imageHeight g.windowHeight,
          Action.endSettingsBatch,
          Action.completeModeSetupPhase ZVModeSetupPhase.initialization]) ∧
    (∀ g : Globals,
      (handleZviewStandardModeImageResolutionChange g).2 =
        if g.activeConnection = none then []
        else if g.standardModeImageWidth = g.windowWidth ∧
            g.standardModeImageHeight = g.windowHeight then []
        else
          [Action.beginSettingsBatch,
            Action.setSettingU16 ZVSettingKey.imageWidth g.windowWidth,
            Action.setSettingU16 ZVSettingKey.imageHeight g.windowHeight,
            Action.endSettingsBatch]) ∧
    (∀ (g : Globals) (stdInp : StandardModeSetupInputs)
        (arInp : AugmentedRealityModeSetupInputs) (v : RemoteSettingsView)
        (n : Nat),
      remoteVisibleAfter v
          (((setUpZviewMode g
            ⟨some ZVMode.standard, ZVModeSetupPhase.initialization, false,
              stdInp, arInp⟩).2.1).take n) = v ∨
        remoteVisibleAfter v
          (((setUpZviewMode g
            ⟨some ZVMode.standard, ZVModeSetupPhase.initialization, false,
              stdInp, arInp⟩).2.1).take n) =
          ⟨g.windowWidth, g.windowHeight⟩) ∧
    (∀ (g : Globals) (v : RemoteSettingsView) (n : Nat),
      remoteVisibleAfter v
          (((handleZviewStandardModeImageResolutionChange g).2).take n) = v ∨
        remoteVisibleAfter v
          (((handleZviewStandardModeImageResolutionChange g).2).take n) =
          ⟨g.windowWidth, g.windowHeight⟩) := by
  refine ⟨setUpZviewModeInitStandard_actions,
    handleZviewStandardModeImageResolutionChange_actions, ?_, ?_⟩
  · intro g stdInp arInp v n
    rw [setUpZviewModeInitStandard_actions]
    exact remoteVisibleAfter_batch_prefix v g.windowWidth g.windowHeight _
      (Or.inr rfl) n
  · intro g v n
    rw [handleZviewStandardModeImageResolutionChange_actions]
    split_ifs
    · left; cases n <;> rfl
    · left; cases n <;> rfl
    · have := remoteVisibleAfter_batch_prefix v g.windowWidth g.windowHeight []
        (Or.inl rfl) n
      simpa using this

/-! ### Frame-pump helper lemmas -/

theorem handleZviewStandardModeImageResolutionChange_preserves (g : Globals) :
    ((handleZviewStandardModeImageResolutionChange g).1).activeConnection =
        g.activeConnection ∧
      ((handleZviewStandardModeImageResolutionChange g).1).standardModeFrameNumber =
        g.standardModeFrameNumber := by
  unfold handleZviewStandardModeImageResolutionChange
  split_ifs <;> exact ⟨rfl, rfl⟩

theorem sentFrameTags_append (a b : List Action) :
    sentFrameTags (a ++ b) = sentFrameTags a ++ sentFrameTags b := by
  simp [sentFrameTags]

theorem sentFrameTags_handleRes (g : Globals) :
    sentFrameTags (handleZviewStandardModeImageResolutionChange g).2 = [] := by
  rw [handleZviewStandardModeImageResolutionChange_actions]
  split_ifs <;> rfl

theorem drawZview_stdSkip (g : Globals) :
    drawZview g (stdModeActiveTick false) = (g, []) := by
  cases hg : g.activeConnection <;> simp [drawZview, stdModeActiveTick, hg]

theorem drawZview_stdSend (g : Globals) (a : ConnId)
    (h : g.activeConnection = some a) :
    drawZview g (stdModeActiveTick true) =
      ((handleZviewStandardModeImageResolutionChange
          { g with standardModeFrameNumber :=
              (g.standardModeFrameNumber + 1) % u64Size }).1,
        [Action.setFrameDataU64 g.standardModeFrameNumber,
          Action.sendFrame g.standardModeFrameNumber] ++
          (handleZviewStandardModeImageResolutionChange
            { g with standardModeFrameNumber :=
                (g.standardModeFrameNumber + 1) % u64Size }).2) := by
  simp [drawZview, stdModeActiveTick, h]

theorem runDrawTicks_foldl_acc (ticks : List DrawTickInputs) :
    ∀ (g : Globals) (acc : List Action),
      ticks.foldl
          (fun p t =>
            let d := drawZview p.1 t
            (d.1, p.2 ++ d.2))
          (g, acc) =
        ((runDrawTicks g ticks).1, acc ++ (runDrawTicks g ticks).2) := by
  induction ticks with
  | nil => intro g acc; simp [runDrawTicks]
  | cons t ts ih =>
    intro g acc
    simp only [runDrawTicks, List.foldl_cons]
    rw [ih, ih]
    simp [List.append_assoc]

theorem runDrawTicks_cons (g : Globals) (t : DrawTickInputs)
    (ts : List DrawTickInputs) :
    runDrawTicks g (t :: ts) =
      ((runDrawTicks (drawZview g t).1 ts).1,
        (drawZview g t).2 ++ (runDrawTicks (drawZview g t).1 ts).2) := by
  unfold runDrawTicks
  rw [List.foldl_cons]
  exact runDrawTicks_foldl_acc ts (drawZview g t).1 ([] ++ (drawZview g t).2)

theorem runDrawTicks_skips (g : Globals) (n : Nat) :
    runDrawTicks g (List.replicate n (stdModeActiveTick false)) = (g, []) := by
  induction n with
  | zero => simp [runDrawTicks]
  | succ n ih =>
    rw [List.replicate_succ, runDrawTicks_cons, drawZview_stdSkip g]
    simpa using ih

theorem setUpZviewStandardMode_activeConnection (g : Globals)
    (inp : StandardModeSetupInputs) :
    ((setUpZviewStandardMode g inp).1).activeConnection = g.activeConnection := by
  unfold setUpZviewStandardMode
  dsimp only
  split_ifs <;> simp [tearDownZviewStandardMode_eq]

theorem setUpZviewAugmentedRealityMode_activeConnection (g : Globals)
    (inp : AugmentedRealityModeSetupInputs) :
    ((setUpZviewAugmentedRealityMode g inp).1).activeConnection =
      g.activeConnection := by
  unfold setUpZviewAugmentedRealityMode
  dsimp only
  split_ifs <;> simp [tearDownZviewAugmentedRealityMode_eq]

theorem runDrawTicks_allAvail_tags (n : Nat) :
    ∀ (g : Globals) (a : ConnId), g.activeConnection = some a →
      g.standardModeFrameNumber < u64Size →
      sentFrameTags
          (runDrawTicks g (List.replicate n (stdModeActiveTick true))).2 =
        (List.range n).map (fun k => (g.standardModeFrameNumber + k) % u64Size) := by
  induction n with
  | zero => intro g a h hc; simp [runDrawTicks, sentFrameTags]
  | succ n ih =>
    intro g a h hc
    have hM : 0 < u64Size := by decide
    rw [List.replicate_succ, runDrawTicks_cons, drawZview_stdSend g a h]
    have hpres := handleZviewStandardModeImageResolutionChange_preserves
      { g with standardModeFrameNumber :=
          (g.standardModeFrameNumber + 1) % u64Size }
    have hact : ((handleZviewStandardModeImageResolutionChange
        { g with standardModeFrameNumber :=
            (g.standardModeFrameNumber + 1) % u64Size }).1).activeConnection =
        some a := by rw [hpres.1]; exact h
    have hfn : ((handleZviewStandardModeImageResolutionChange
        { g with standardModeFrameNumber :=
            (g.standardModeFrameNumber + 1) % u64Size }).1).standardModeFrameNumber =
        (g.standardModeFrameNumber + 1) % u64Size := hpres.2
    rw [sentFrameTags_append, sentFrameTags_append, sentFrameTags_handleRes,
      ih _ a hact (by rw [hfn]; exact Nat.mod_lt _ hM), hfn]
    rw [List.range_succ_eq_map, List.map_cons, List.map_map]
    have hfun : (fun k => ((g.standardModeFrameNumber + 1) % u64Size + k) % u64Size) =
        ((fun k => (g.standardModeFrameNumber + k) % u64Size) ∘ Nat.succ) := by
      funext k
      simp only [Function.comp]
      rw [Nat.mod_add_mod]
      congr 1
      omega
    rw [hfun]
    simp [sentFrameTags, Nat.mod_eq_of_lt hc]

/-! ### C3: AR frame tag echo -/

/-- C3: While AR mode is active, every frame the presenter sends is
tagged with the frame number read from the incoming camera frame received
in that same tick (never a previous tick's tag, never a local counter):
any `sendFrame t` emitted by an AR-mode `drawZview` tick satisfies
`t = fr.frameNumber` for this tick's received frame `fr`; with a received
frame and a free outgoing slot the tick emits exactly
release/tag/send with that tag; and with no received frame the tick emits
nothing. -/
theorem arModeFrameTagEcho :
    (∀ (g : Globals) (inp : DrawTickInputs) (t : Nat),
      inp.mode = some ZVMode.augmentedReality →
      Action.sendFrame t ∈ (drawZview g inp).2 →
      ∃ fr, inp.receivedFrame = some fr ∧ t = fr.frameNumber) ∧
    (∀ (g : Globals) (a : ConnId) (fr : ReceivedFrame),
      g.activeConnection = some a →
      drawZview g
          ⟨ZVConnectionState.modeActive, some ZVMode.augmentedReality,
            some fr, true⟩ =
        (g, [Action.releaseReceivedFrame,
          Action.setFrameDataU64 fr.frameNumber,
          Action.sendFrame fr.frameNumber])) ∧
    (∀ (g : Globals) (a : ConnId) (avail : Bool),
      g.activeConnection = some a →
      drawZview g
          ⟨ZVConnectionState.modeActive, some ZVMode.augmentedReality,
            none, avail⟩ =
        (g, [])) := by
  refine ⟨?_, ?_, ?_⟩
  · intro g inp t hmode hmem
    obtain ⟨st, mode, fr, avail⟩ := inp
    dsimp only at hmode
    subst hmode
    unfold drawZview at hmem
    dsimp only at hmem
    rcases hg : g.activeConnection with _ | a <;> rw [hg] at hmem
    · simp at hmem
    · by_cases hst : st = ZVConnectionState.modeActive
      · subst hst
        simp only [if_neg, reduceCtorEq] at hmem
        rcases fr with _ | f
        · simp at hmem
        · cases avail
          · simp at hmem
          · simp at hmem
            exact ⟨f, rfl, hmem⟩
      · rw [if_neg (by simp [hg])] at hmem
        rw [if_pos hst] at hmem
        simp at hmem
  · intro g a fr h
    simp [drawZview, h]
  · intro g a avail h
    simp [drawZview, h]

/-- Witness for C3 at a concrete state and tick. -/
theorem arModeFrameTagEcho_witness :
    (⟨ZVConnectionState.modeActive, some ZVMode.augmentedReality,
        some ⟨42⟩, true⟩ : DrawTickInputs).mode =
      some ZVMode.augmentedReality ∧
    Action.sendFrame 42 ∈
      (drawZview { initialGlobals with activeConnection := some 1 }
        ⟨ZVConnectionState.modeActive, some ZVMode.augmentedReality,
          some ⟨42⟩, true⟩).2 ∧
    (∃ fr, (⟨ZVConnectionState.modeActive, some ZVMode.augmentedReality,
        some ⟨42⟩, true⟩ : DrawTickInputs).receivedFrame = some fr ∧
      42 = fr.frameNumber) ∧
    ({ initialGlobals with activeConnection := some 1 }).activeConnection =
      some 1 ∧
    drawZview { initialGlobals with activeConnection := some 1 }
        ⟨ZVConnectionState.modeActive, some ZVMode.augmentedReality,
          some ⟨42⟩, true⟩ =
      ({ initialGlobals with activeConnection := some 1 },
        [Action.releaseReceivedFrame, Action.setFrameDataU64 42,
          Action.sendFrame 42]) ∧
    drawZview { initialGlobals with activeConnection := some 1 }
        ⟨ZVConnectionState.modeActive, some ZVMode.augmentedReality,
          none, true⟩ =
      ({ initialGlobals with activeConnection := some 1 }, []) :=
  ⟨rfl, by decide,
    arModeFrameTagEcho.1 { initialGlobals with activeConnection := some 1 }
      ⟨ZVConnectionState.modeActive, some ZVMode.augmentedReality,
        some ⟨42⟩, true⟩ 42 rfl (by decide),
    rfl,
    arModeFrameTagEcho.2.1 { initialGlobals with activeConnection := some 1 }
      1 ⟨42⟩ rfl,
    arModeFrameTagEcho.2.2 { initialGlobals with activeConnection := some 1 }
      1 true rfl⟩

/-! ### C8: standard-mode frame counter across skipped ticks -/

/-- C8: In Standard mode, a slot-unavailable tick is skipped entirely
(state unchanged, nothing emitted, counter not advanced); an available
tick sends exactly one frame tagged with the current counter and
increments the counter by one (modulo `2^64`); and across any run of
consecutive slot-unavailable ticks followed by an available one, the one
frame sent carries the counter value from before the run, which then
increments by exactly one. -/
theorem stdModeFrameCounter_skipAndResume :
    (∀ g : Globals, drawZview g (stdModeActiveTick false) = (g, [])) ∧
    (∀ (g : Globals) (a : ConnId), g.activeConnection = some a →
      sentFrameTags (drawZview g (stdModeActiveTick true)).2 =
          [g.standardModeFrameNumber] ∧
        ((drawZview g (stdModeActiveTick true)).1).standardModeFrameNumber =
          (g.standardModeFrameNumber + 1) % u64Size) ∧
    (∀ (g : Globals) (a : ConnId) (n : Nat), g.activeConnection = some a →
      sentFrameTags
          (runDrawTicks g
            (List.replicate n (stdModeActiveTick false) ++
              [stdModeActiveTick true])).2 =
          [g.standardModeFrameNumber] ∧
        ((runDrawTicks g
            (List.replicate n (stdModeActiveTick false) ++
              [stdModeActiveTick true])).1).standardModeFrameNumber =
          (g.standardModeFrameNumber + 1) % u64Size) := by
  have hsend : ∀ (g : Globals) (a : ConnId), g.activeConnection = some a →
      sentFrameTags (drawZview g (stdModeActiveTick true)).2 =
          [g.standardModeFrameNumber] ∧
        ((drawZview g (stdModeActiveTick true)).1).standardModeFrameNumber =
          (g.standardModeFrameNumber + 1) % u64Size := by
    intro g a h
    rw [drawZview_stdSend g a h]
    constructor
    · rw [sentFrameTags_append, sentFrameTags_handleRes]
      rfl
    · rw [(handleZviewStandardModeImageResolutionChange_preserves _).2]
  refine ⟨drawZview_stdSkip, hsend, ?_⟩
  intro g a n h
  induction n with
  | zero =>
    rw [List.replicate_zero, List.nil_append, runDrawTicks_cons]
    simp only [runDrawTicks, List.foldl_nil]
    have hs := hsend g a h
    constructor
    · rw [sentFrameTags_append, hs.1]
      rfl
    · simpa using hs.2
  | succ n ih =>
    rw [List.replicate_succ, List.cons_append, runDrawTicks_cons,
      drawZview_stdSkip]
    simpa using ih

/-- Witness for C8 with two skipped ticks then one send, from a concrete
connected state. -/
theorem stdModeFrameCounter_skipAndResume_witness :
    ({ initialGlobals with activeConnection := some 1 }).activeConnection =
      some 1 ∧
    (sentFrameTags
        (runDrawTicks { initialGlobals with activeConnection := some 1 }
          (List.replicate 2 (stdModeActiveTick false) ++
            [stdModeActiveTick true])).2 =
        [({ initialGlobals with activeConnection := some 1 } :
          Globals).standardModeFrameNumber] ∧
      ((runDrawTicks { initialGlobals with activeConnection := some 1 }
          (List.replicate 2 (stdModeActiveTick false) ++
            [stdModeActiveTick true])).1).standardModeFrameNumber =
        (({ initialGlobals with activeConnection := some 1 } :
          Globals).standardModeFrameNumber + 1) % u64Size) :=
  ⟨rfl, stdModeFrameCounter_skipAndResume.2.2
    { initialGlobals with activeConnection := some 1 } 1 2 rfl⟩

/-! ### C10: standard-mode Completion setup resets the frame counter -/

/-- C10: Standard-mode Completion setup resets the outgoing frame counter
to `0` (whenever the framebuffer checks complete), so the frame-number
tag sequence restarts at `0` after every re-setup: an all-available run
of `n` ticks right after setup sends tags `0, 1, …, n-1` (mod `2^64`). -/
theorem stdSetup_resetsFrameCounter (g : Globals)
    (stdInp : StandardModeSetupInputs) (a : ConnId) (n : Nat)
    (hact : g.activeConnection = some a)
    (hfb : stdInp.framebufferComplete = true) :
    ((setUpZviewStandardMode g stdInp).1).standardModeFrameNumber = 0 ∧
    sentFrameTags
        (runDrawTicks (setUpZviewStandardMode g stdInp).1
          (List.replicate n (stdModeActiveTick true))).2 =
      (List.range n).map (· % u64Size) := by
  have hfn : ((setUpZviewStandardMode g stdInp).1).standardModeFrameNumber = 0 := by
    unfold setUpZviewStandardMode
    dsimp only
    rw [hfb]
    rfl
  refine ⟨hfn, ?_⟩
  have hact2 : ((setUpZviewStandardMode g stdInp).1).activeConnection = some a := by
    rw [setUpZviewStandardMode_activeConnection]; exact hact
  have := runDrawTicks_allAvail_tags n (setUpZviewStandardMode g stdInp).1 a
    hact2 (by rw [hfn]; decide)
  rw [this, hfn]
  simp

/-- Witness for C10 at a concrete connected state with three post-setup
ticks. -/
theorem stdSetup_resetsFrameCounter_witness :
    (({ initialGlobals with
        activeConnection := some 1, standardModeFrameNumber := 999 } : Globals).activeConnection =
      some 1 ∧
      (⟨7, 8, 9, 10, 11, true⟩ :
        StandardModeSetupInputs).framebufferComplete = true) ∧
    (((setUpZviewStandardMode
        { initialGlobals with
          activeConnection := some 1, standardModeFrameNumber := 999 }
        ⟨7, 8, 9, 10, 11, true⟩).1).standardModeFrameNumber = 0 ∧
    sentFrameTags
        (runDrawTicks
          (setUpZviewStandardMode
            { initialGlobals with
              activeConnection := some 1, standardModeFrameNumber := 999 }
            ⟨7, 8, 9, 10, 11, true⟩).1
          (List.replicate 3 (stdModeActiveTick true))).2 =
      (List.range 3).map (· % u64Size)) :=
  ⟨⟨rfl, rfl⟩,
    stdSetup_resetsFrameCounter
      { initialGlobals with
        activeConnection := some 1, standardModeFrameNumber := 999 }
      ⟨7, 8, 9, 10, 11, true⟩ 1 3 rfl rfl⟩

/-! ### C6: switch-mode cycles to the next available supported mode -/

theorem findSome?_eq_none_of_all {α β : Type} (f : α → Option β) :
    ∀ l : List α, (∀ x ∈ l, f x = none) → l.findSome? f = none := by
  intro l
  induction l with
  | nil => intro _; rfl
  | cons a l ih =>
    intro h
    have hstep : (a :: l).findSome? f =
        match f a with
        | some b => some b
        | none => l.findSome? f := rfl
    rw [hstep, h a (by simp)]
    exact ih fun x hx => h x (by simp [hx])

theorem switchZviewModeLoop_succ_none (supportedModes : List ZVSupportedMode)
    (idx fuel : Nat)
    (hm : supportedModes[(idx + 1) % supportedModes.length]? = none) :
    switchZviewModeLoop supportedModes idx (fuel + 1) =
      ((idx + 1) % supportedModes.length, none) := by
  simp [switchZviewModeLoop, hm]

theorem switchZviewModeLoop_succ_available (supportedModes : List ZVSupportedMode)
    (idx fuel : Nat) (m : ZVSupportedMode)
    (hm : supportedModes[(idx + 1) % supportedModes.length]? = some m)
    (ha : m.availability = ZVModeAvailability.available) :
    switchZviewModeLoop supportedModes idx (fuel + 1) =
      ((idx + 1) % supportedModes.length, some m.mode) := by
  simp [switchZviewModeLoop, hm, ha]

theorem switchZviewModeLoop_succ_skip (supportedModes : List ZVSupportedMode)
    (idx fuel : Nat) (m : ZVSupportedMode)
    (hm : supportedModes[(idx + 1) % supportedModes.length]? = some m)
    (ha : m.availability = ZVModeAvailability.notAvailable) :
    switchZviewModeLoop supportedModes idx (fuel + 1) =
      switchZviewModeLoop supportedModes ((idx + 1) % supportedModes.length)
        fuel := by
  simp [switchZviewModeLoop, hm, ha]

theorem findSome?_cons_eq {α β : Type} (f : α → Option β) (x : α) (xs : List α) :
    (x :: xs).findSome? f =
      match f x with
      | some b => some b
      | none => xs.findSome? f := by
  cases hfx : f x <;> simp [List.findSome?, hfx]

theorem switchZviewModeLoop_eq (supportedModes : List ZVSupportedMode) :
    ∀ (fuel idx : Nat),
      (switchZviewModeLoop supportedModes idx fuel).2 =
        ((List.range fuel).map
            (fun k => (idx + 1 + k) % supportedModes.length)).findSome?
          (fun i =>
            match supportedModes[i]? with
            | some m =>
              if m.availability = ZVModeAvailability.available then some m.mode
              else none
            | none => none) := by
  intro fuel
  induction fuel with
  | zero => intro idx; rfl
  | succ fuel ih =>
    intro idx
    rw [List.range_succ_eq_map, List.map_cons, List.map_map, findSome?_cons_eq]
    simp only [Nat.add_zero]
    rcases hm : supportedModes[(idx + 1) % supportedModes.length]? with _ | m
    · rw [switchZviewModeLoop_succ_none supportedModes idx fuel hm]
      dsimp only
      rw [(findSome?_eq_none_of_all _ _ fun x _ => by
        have hlen : supportedModes.length ≤ (idx + 1) % supportedModes.length := by
          simpa using hm
        have hn : supportedModes.length = 0 := by
          rcases Nat.eq_zero_or_pos supportedModes.length with h0 | hpos
          · exact h0
          · exact absurd hlen (Nat.not_le.mpr (Nat.mod_lt _ hpos))
        rw [List.getElem?_eq_none (by omega)])]
    · rcases ha : m.availability with _ | _
      · rw [switchZviewModeLoop_succ_available supportedModes idx fuel m hm ha]
        simp [ha]
      · rw [switchZviewModeLoop_succ_skip supportedModes idx fuel m hm ha]
        simp only [ha]
        rw [if_neg (fun h => ZVModeAvailability.noConfusion h)]
        rw [ih ((idx + 1) % supportedModes.length)]
        have hfun : (fun k => ((idx + 1) % supportedModes.length + 1 + k) %
              supportedModes.length) =
            ((fun k => (idx + 1 + k) % supportedModes.length) ∘ Nat.succ) := by
          funext k
          simp only [Function.comp]
          rw [Nat.add_assoc, Nat.mod_add_mod]
          congr 1
          omega
        rw [hfun]

theorem switchZviewModeLoop_spec (modes : List ZVSupportedMode) (idx : Nat) :
    (switchZviewModeLoop modes idx modes.length).2 =
      nextAvailableModeSpec modes idx := by
  rw [switchZviewModeLoop_eq]
  rfl

/-- C6: The switch-mode command does nothing without an active connection
or outside the `noMode`/`modeActive` states; otherwise it issues a mode
change to the first available supported mode found after the last-used
index, wrapping past the end of the list and skipping entries whose
availability is `notAvailable` (`nextAvailableModeSpec`), and issues no
mode change when no supported mode is available or the list is empty.
Concretely: with two available modes and last index `0` the command moves
to index `1`; with the second entry unavailable it wraps back to index
`0`. -/
theorem switchZviewMode_nextAvailable :
    (∀ (g : Globals) (st : ZVConnectionState) (modes : List ZVSupportedMode),
      (switchZviewMode g st modes).2 =
        if g.activeConnection = none then []
        else if st ≠ ZVConnectionState.noMode ∧
            st ≠ ZVConnectionState.modeActive then []
        else
          match nextAvailableModeSpec modes g.currentConnectionModeIndex with
          | some m => [Action.setConnectionMode m]
          | none => []) ∧
    (∀ (modes : List ZVSupportedMode) (lastIndex : Nat),
      (∀ sm ∈ modes, sm.availability = ZVModeAvailability.notAvailable) →
      nextAvailableModeSpec modes lastIndex = none) ∧
    (switchZviewMode { initialGlobals with activeConnection := some 1 }
        ZVConnectionState.modeActive
        [⟨ZVMode.standard, ZVModeAvailability.available⟩,
          ⟨ZVMode.augmentedReality, ZVModeAvailability.available⟩] =
      ({ initialGlobals with
          activeConnection := some 1, currentConnectionModeIndex := 1 },
        [Action.setConnectionMode ZVMode.augmentedReality])) ∧
    (switchZviewMode { initialGlobals with activeConnection := some 1 }
        ZVConnectionState.modeActive
        [⟨ZVMode.standard, ZVModeAvailability.available⟩,
          ⟨ZVMode.augmentedReality, ZVModeAvailability.notAvailable⟩] =
      ({ initialGlobals with
          activeConnection := some 1, currentConnectionModeIndex := 0 },
        [Action.setConnectionMode ZVMode.standard])) := by
  refine ⟨?_, ?_, by decide, by decide⟩
  · intro g st modes
    unfold switchZviewMode
    split_ifs with h1 h2
    · rfl
    · rfl
    · dsimp only
      rw [switchZviewModeLoop_spec]
      rcases nextAvailableModeSpec modes g.currentConnectionModeIndex with _ | m <;>
        rfl
  · intro modes lastIndex h
    unfold nextAvailableModeSpec
    apply findSome?_eq_none_of_all
    intro i _
    rcases hget : modes[i]? with _ | m
    · rfl
    · have hm := h m (List.getElem?_mem hget)
      simp [hget, hm]

/-- Witness for C6's no-available-mode component at a concrete
single-entry unavailable list. -/
theorem switchZviewMode_nextAvailable_witness :
    (∀ sm ∈ [(⟨ZVMode.standard, ZVModeAvailability.notAvailable⟩ :
        ZVSupportedMode)],
      sm.availability = ZVModeAvailability.notAvailable) ∧
    nextAvailableModeSpec
        [⟨ZVMode.standard, ZVModeAvailability.notAvailable⟩] 5 = none :=
  ⟨by decide,
    switchZviewMode_nextAvailable.2.1
      [⟨ZVMode.standard, ZVModeAvailability.notAvailable⟩] 5 (by decide)⟩

/-! ### C7: video-recording polling and edge-triggered logging -/

theorem processZviewVideoRecording_activeConnection (g : Globals)
    (s : ZVVideoRecordingState) (e : Nat) :
    ((processZviewVideoRecording g s e).1).activeConnection =
      g.activeConnection := rfl

theorem processVideoRecordingSweep_foldl_acc
    (observations : List (ZVVideoRecordingState × Nat)) :
    ∀ (g : Globals) (acc : List Action),
      observations.foldl
          (fun p o =>
            let q := processZviewVideoRecording p.1 o.1 o.2
            (q.1, p.2 ++ q.2))
          (g, acc) =
        ((processVideoRecordingSweep g observations).1,
          acc ++ (processVideoRecordingSweep g observations).2) := by
  induction observations with
  | nil => intro g acc; simp [processVideoRecordingSweep]
  | cons o os ih =>
    intro g acc
    simp only [processVideoRecordingSweep, List.foldl_cons]
    rw [ih, ih]
    simp [List.append_assoc]

theorem processVideoRecordingSweep_cons (g : Globals)
    (o : ZVVideoRecordingState × Nat)
    (os : List (ZVVideoRecordingState × Nat)) :
    processVideoRecordingSweep g (o :: os) =
      ((processVideoRecordingSweep
          (processZviewVideoRecording g o.1 o.2).1 os).1,
        (processZviewVideoRecording g o.1 o.2).2 ++
          (processVideoRecordingSweep
            (processZviewVideoRecording g o.1 o.2).1 os).2) := by
  unfold processVideoRecordingSweep
  rw [List.foldl_cons]
  exact processVideoRecordingSweep_foldl_acc os _ _

/-- C7 counterexample: two sessions are polled each tick against the one
global `g_zViewVideoRecordingLatestState` — there is no per-session
last-known state.  With session A observed `recording` and session B
observed `notRecording` on tick 1 (leaving the global at `notRecording`),
processing session A again on tick 2 with the unchanged observation
`recording` emits a state-transition log, although per-session
edge-triggered logging (the claim's reading, `perSessionTransitionLogs`)
mandates no log for a session whose observation is unchanged. -/
theorem videoRecording_perSessionEdge_counterexample :
    (processZviewVideoRecording
        (processVideoRecordingSweep initialGlobals
          [(ZVVideoRecordingState.recording, 0),
            (ZVVideoRecordingState.notRecording, 0)]).1
        ZVVideoRecordingState.recording 0).2 =
      [Action.logVideoRecordingTransition ZVVideoRecordingState.notRecording
        ZVVideoRecordingState.recording] ∧
    perSessionTransitionLogs [ZVVideoRecordingState.recording]
        [ZVVideoRecordingState.recording] = [false] := by
  constructor
  · rfl
  · rfl

/-- C7 (amended): on every tick, for every session, the engine reads the
video-recording state; when it is `error` it reads, logs, and clears the
error code; and it logs a state-transition message exactly when the
observed state differs from the last state observed by the engine via the
single engine-global last-known state shared across all sessions (not a
per-session one), which is updated to each observation in turn.  The
sweep over the connection list equals the edge-detection of
`videoRecordingExpectedActions` threaded through the observation
sequence. -/
theorem videoRecording_sweep_globalLastKnown (g : Globals)
    (observations : List (ZVVideoRecordingState × Nat)) :
    processVideoRecordingSweep g observations =
      ({ g with videoRecordingLatestState :=
          observations.foldl (fun _ o => o.1) g.videoRecordingLatestState },
        videoRecordingExpectedActions g.videoRecordingLatestState
          observations) := by
  induction observations generalizing g with
  | nil =>
    simp only [processVideoRecordingSweep, List.foldl_nil,
      videoRecordingExpectedActions]
  | cons o os ih =>
    rw [processVideoRecordingSweep_cons, ih]
    have hq : (processZviewVideoRecording g o.1 o.2).1 =
        { g with videoRecordingLatestState := o.1 } := rfl
    have hacts : (processZviewVideoRecording g o.1 o.2).2 =
        (if o.1 ≠ g.videoRecordingLatestState then
          [Action.logVideoRecordingTransition g.videoRecordingLatestState o.1]
        else []) ++
          (if o.1 = ZVVideoRecordingState.error then
            [Action.logVideoRecordingErrorCode o.2,
              Action.clearVideoRecordingError]
          else []) := rfl
    rw [hq, hacts]
    cases o
    rw [List.foldl_cons]
    rfl

/-! ### C1: at most one accepted/active connection -/

theorem acceptedAfter_append (acc : List ConnId) (a b : List Action) :
    acceptedAfter acc (a ++ b) = acceptedAfter (acceptedAfter acc a) b := by
  simp [acceptedAfter, List.foldl_append]

theorem acceptedAfter_nil (acc : List ConnId) : acceptedAfter acc [] = acc := rfl

theorem acceptedAfter_cons (acc : List ConnId) (a : Action) (acts : List Action) :
    acceptedAfter acc (a :: acts) =
      acceptedAfter (applyAcceptanceAction acc a) acts := rfl

theorem acceptedAfter_vr (g : Globals) (s : ZVVideoRecordingState) (e : Nat)
    (acc : List ConnId) :
    acceptedAfter acc (processZviewVideoRecording g s e).2 = acc := by
  unfold processZviewVideoRecording
  dsimp only
  split_ifs <;> rfl

theorem acceptedAfter_setUpZviewMode (g : Globals) (inp : ModeSetupInputs)
    (acc : List ConnId) :
    acceptedAfter acc (setUpZviewMode g inp).2.1 = acc := by
  obtain ⟨mode, phase, awaiting, stdInp, arInp⟩ := inp
  cases phase <;> rcases mode with _ | m <;> try cases m
  all_goals
    unfold setUpZviewMode
    dsimp only
    split_ifs <;> rfl

theorem setUpZviewMode_activeConnection (g : Globals) (inp : ModeSetupInputs) :
    ((setUpZviewMode g inp).1).activeConnection = g.activeConnection := by
  obtain ⟨mode, phase, awaiting, stdInp, arInp⟩ := inp
  cases phase <;> rcases mode with _ | m <;> try cases m
  all_goals
    unfold setUpZviewMode
    dsimp only
    split_ifs <;>
      simp [tearDownZviewMode_activeConnection,
        setUpZviewStandardMode_activeConnection,
        setUpZviewAugmentedRealityMode_activeConnection]

theorem processNewZviewConnection_inv (g : Globals) (c : ConnId)
    (acc : List ConnId) (h : acc = g.activeConnection.toList) :
    acceptedAfter acc (processNewZviewConnection g c).2 =
      ((processNewZviewConnection g c).1).activeConnection.toList := by
  subst h
  unfold processNewZviewConnection
  rcases hg : g.activeConnection with _ | a
  · simp [hg, acceptedAfter, applyAcceptanceAction]
  · by_cases hc : some c = some a
    · simp [hg, hc, acceptedAfter_nil]
    · have hca : a ≠ c := fun e => hc (by rw [e])
      simp [hg, hc, acceptedAfter_nil, acceptedAfter_cons,
        applyAcceptanceAction, List.erase_cons, hca]

theorem updateZviewConnection_inv (g : Globals) (c : ConnId)
    (inp : ConnectionTickInputs) (acc : List ConnId)
    (h : acc = g.activeConnection.toList) :
    acceptedAfter acc (updateZviewConnection g c inp).2.1 =
      ((updateZviewConnection g c inp).1).activeConnection.toList := by
  obtain ⟨st, ms, vs, ve⟩ := inp
  cases st
  case awaitingConnectionAcceptance =>
    simp [updateZviewConnection, acceptedAfter_append,
      processNewZviewConnection_inv g c acc h, acceptedAfter_vr,
      processZviewVideoRecording_activeConnection]
  case modeSetup =>
    by_cases hok : (setUpZviewMode g ms).2.2 = true
    · simp [updateZviewConnection, hok, acceptedAfter_append,
        acceptedAfter_setUpZviewMode, acceptedAfter_vr,
        processZviewVideoRecording_activeConnection,
        setUpZviewMode_activeConnection, h]
    · simp [updateZviewConnection, hok, acceptedAfter_setUpZviewMode,
        setUpZviewMode_activeConnection, h]
  case closed =>
    by_cases hc : g.activeConnection = some c
    · subst h
      simp [updateZviewConnection, hc, acceptedAfter_append, acceptedAfter_vr,
        processZviewVideoRecording_activeConnection,
        tearDownZviewMode_activeConnection, acceptedAfter_nil,
        acceptedAfter_cons, applyAcceptanceAction, List.erase_cons]
    · rcases hg : g.activeConnection with _ | a
      · subst h
        simp [updateZviewConnection, hc, hg, acceptedAfter_append,
          acceptedAfter_vr, processZviewVideoRecording_activeConnection,
          acceptedAfter_nil, acceptedAfter_cons, applyAcceptanceAction]
      · subst h
        have hac : a ≠ c := by
          rintro rfl
          exact hc hg
        simp [updateZviewConnection, hc, hg, acceptedAfter_append,
          acceptedAfter_vr, processZviewVideoRecording_activeConnection,
          acceptedAfter_nil, acceptedAfter_cons, applyAcceptanceAction,
          List.erase_cons, hac]
  case error =>
    by_cases hc : g.activeConnection = some c
    · subst h
      simp [updateZviewConnection, hc, acceptedAfter_append, acceptedAfter_vr,
        processZviewVideoRecording_activeConnection,
        tearDownZviewMode_activeConnection, acceptedAfter_nil,
        acceptedAfter_cons, applyAcceptanceAction, List.erase_cons]
    · rcases hg : g.activeConnection with _ | a
      · subst h
        simp [updateZviewConnection, hc, hg, acceptedAfter_append,
          acceptedAfter_vr, processZviewVideoRecording_activeConnection,
          acceptedAfter_nil, acceptedAfter_cons, applyAcceptanceAction]
      · subst h
        have hac : a ≠ c := by
          rintro rfl
          exact hc hg
        simp [updateZviewConnection, hc, hg, acceptedAfter_append,
          acceptedAfter_vr, processZviewVideoRecording_activeConnection,
          acceptedAfter_nil, acceptedAfter_cons, applyAcceptanceAction,
          List.erase_cons, hac]
  all_goals
    simp [updateZviewConnection, acceptedAfter_append, acceptedAfter_vr,
      processZviewVideoRecording_activeConnection,
      tearDownZviewMode_activeConnection, h]

theorem runZviewConnectionReports_inv
    (reports : List (ConnId × ConnectionTickInputs)) :
    ∀ p : Globals × List ConnId, p.2 = p.1.activeConnection.toList →
      (runZviewConnectionReports p reports).2 =
        ((runZviewConnectionReports p reports).1).activeConnection.toList := by
  induction reports with
  | nil => intro p h; exact h
  | cons r rs ih =>
    intro p h
    have hstep : runZviewConnectionReports p (r :: rs) =
        runZviewConnectionReports
          ((updateZviewConnection p.1 r.1 r.2).1,
            acceptedAfter p.2 (updateZviewConnection p.1 r.1 r.2).2.1) rs := rfl
    rw [hstep]
    exact ih _ (updateZviewConnection_inv p.1 r.1 r.2 p.2 h)

/-- C1: At most one connection ever holds accepted/active status.  Along
every sequence of per-connection state reports processed from the initial
state, the ghost accepted list (accumulated from the emitted
accept/close/destroy transport calls) never has more than one element;
a connection in `awaitingConnectionAcceptance` is accepted and recorded
as the active connection exactly when no active connection exists, and is
otherwise closed immediately with the connection-rejected reason; and
when the active connection reports `closed` or `error`, the
active-connection pointer is cleared. -/
theorem singleActiveAcceptedConnection :
    (∀ reports : List (ConnId × ConnectionTickInputs),
      ((runZviewConnectionReports (initialGlobals, []) reports).2).length ≤ 1) ∧
    (∀ (g : Globals) (c : ConnId), g.activeConnection = none →
      ((processNewZviewConnection g c).1).activeConnection = some c ∧
        (processNewZviewConnection g c).2 =
          [Action.acceptConnection c, Action.setNodeStatus true]) ∧
    (∀ (g : Globals) (a c : ConnId), g.activeConnection = some a → a ≠ c →
      (processNewZviewConnection g c).1 = g ∧
        (processNewZviewConnection g c).2 =
          [Action.closeConnection c ZVCloseReason.connectionRejected]) ∧
    (∀ (g : Globals) (c : ConnId) (inp : ConnectionTickInputs),
      g.activeConnection = some c →
      (inp.connectionState = ZVConnectionState.closed ∨
        inp.connectionState = ZVConnectionState.error) →
      ((updateZviewConnection g c inp).1).activeConnection = none) := by
  refine ⟨?_, ?_, ?_, ?_⟩
  · intro reports
    have hinv := runZviewConnectionReports_inv reports (initialGlobals, []) rfl
    rw [hinv]
    cases ((runZviewConnectionReports (initialGlobals, []) reports).1).activeConnection <;>
      simp [Option.toList]
  · intro g c h
    constructor <;> simp [processNewZviewConnection, h]
  · intro g a c h hac
    have hc : ¬(some c = some a) := fun e => hac (Option.some.inj e).symm
    constructor <;> simp [processNewZviewConnection, h, hc]
  · intro g c inp h hst
    obtain ⟨st, ms, vs, ve⟩ := inp
    rcases hst with hst | hst <;>
      (dsimp only at hst
       subst hst
       simp [updateZviewConnection, h,
         processZviewVideoRecording_activeConnection,
         tearDownZviewMode_activeConnection])

/-- Witness for C1 at concrete states: acceptance from the empty state,
rejection of a second connection, and pointer clearing on close. -/
theorem singleActiveAcceptedConnection_witness :
    (initialGlobals.activeConnection = none ∧
      ((processNewZviewConnection initialGlobals 7).1).activeConnection =
          some 7 ∧
        (processNewZviewConnection initialGlobals 7).2 =
          [Action.acceptConnection 7, Action.setNodeStatus true]) ∧
    (({ initialGlobals with activeConnection := some 1 } :
        Globals).activeConnection = some 1 ∧ (1 : ConnId) ≠ 2 ∧
      (processNewZviewConnection
          { initialGlobals with activeConnection := some 1 } 2).1 =
          { initialGlobals with activeConnection := some 1 } ∧
        (processNewZviewConnection
            { initialGlobals with activeConnection := some 1 } 2).2 =
          [Action.closeConnection 2 ZVCloseReason.connectionRejected]) ∧
    (({ initialGlobals with activeConnection := some 1 } :
        Globals).activeConnection = some 1 ∧
      ((updateZviewConnection { initialGlobals with activeConnection := some 1 }
          1
          ⟨ZVConnectionState.closed,
            ⟨none, ZVModeSetupPhase.initialization, false,
              ⟨0, 0, 0, 0, 0, false⟩,
              ⟨0, 0, 0, 0, 0, 0, 0, 0, 0, 0, false, false⟩⟩,
            ZVVideoRecordingState.notRecording, 0⟩).1).activeConnection =
        none) :=
  ⟨⟨rfl, singleActiveAcceptedConnection.2.1 initialGlobals 7 rfl⟩,
    ⟨rfl, by decide,
      singleActiveAcceptedConnection.2.2.1
        { initialGlobals with activeConnection := some 1 } 1 2 rfl
        (by decide)⟩,
    ⟨rfl,
      singleActiveAcceptedConnection.2.2.2
        { initialGlobals with activeConnection := some 1 } 1
        ⟨ZVConnectionState.closed,
          ⟨none, ZVModeSetupPhase.initialization, false,
            ⟨0, 0, 0, 0, 0, false⟩,
            ⟨0, 0, 0, 0, 0, 0, 0, 0, 0, 0, false, false⟩⟩,
          ZVVideoRecordingState.notRecording, 0⟩ rfl (Or.inl rfl)⟩⟩

end BasicPresenter
